import Mathlib

/-
Verification of the ioctx effect-backend library (src/ioctx/protocol.py and
src/ioctx/backends.py), shallowly embedded in Lean 4.

Naming: the spec calls the three realizations RealBackend, FakeBackend and
TracingDecorator; the source classes are RealIO, FakeIO and TracingIO in
backends.py. We use the spec-level names for the Lean types; every method
keeps its source name (read_file, write_file, http_get, http_post,
execute_command, log) and is translated line by line from the source.

Python dictionaries are modelled as insertion-ordered association lists
(type Dict below) whose insert replaces an existing binding in place, as
Python assignment to a dict key does. Python bytes are modelled as List Nat,
so len(content) is content.length. A Python object that the code only ever
feeds to repr(...) and to an f-string (the data argument of http_post) is
modelled by the pair of those two textual forms (structure PyObj).
-/

/-- Insertion-ordered association list modelling a Python dict. -/
abbrev Dict (K V : Type) := List (K × V)

/-- Python `d[k]` / `k in d` lookup: first binding for the key. -/
def Dict.get? [DecidableEq K] : Dict K V → K → Option V
  | [], _ => none
  | (k, v) :: d, q => if k = q then some v else Dict.get? d q

/-- Python `d[k] = v`: replace the existing binding in place, else append. -/
def Dict.insert [DecidableEq K] : Dict K V → K → V → Dict K V
  | [], k, v => [(k, v)]
  | (k', v') :: d, k, v =>
      if k' = k then (k, v) :: d else (k', v') :: Dict.insert d k v

/-- A Python object as the code observes it: its repr(...) text (used in the
composite fixture key of http_post) and its str(...) text (used in the
LookupMiss message). -/
structure PyObj where
  repr : String
  str : String
deriving DecidableEq, Inhabited

/-- The Python exception kinds this code can raise. -/
inductive PyErr where
  | fileNotFound (msg : String)
  | valueError (msg : String)
  | attributeError (msg : String)
  | importError (msg : String)
deriving DecidableEq, Inhabited

/-- protocol.py HttpResponse: status_code, text, headers. -/
structure HttpResponse where
  status_code : Int
  text : String
  headers : Dict String String := []
deriving DecidableEq, Inhabited

/-- protocol.py CommandResult: return_code, stdout, stderr. -/
structure CommandResult where
  return_code : Int
  stdout : String
  stderr : String
deriving DecidableEq, Inhabited

/-- Values that appear in the args mapping of a trace record. -/
inductive PyVal where
  | str (s : String)
  | bytes (b : List Nat)
  | int (n : Int)
  | strList (l : List String)
  | obj (o : PyObj)
deriving DecidableEq, Inhabited

/-- The value a delegated operation returns; pyNone is the Python None that
void operations return. -/
inductive OpResult where
  | bytes (b : List Nat)
  | http (r : HttpResponse)
  | cmd (r : CommandResult)
  | pyNone
deriving DecidableEq, Inhabited

/-- One call through the effect interface, with its arguments. -/
inductive Op where
  | read_file (path : String)
  | write_file (path : String) (content : List Nat)
  | http_get (url : String) (kwargs : Dict String PyVal)
  | http_post (url : String) (data : PyObj) (kwargs : Dict String PyVal)
  | execute_command (cmd : List String)
  | log (level : String) (message : String)
deriving DecidableEq, Inhabited

/-- The Python method name of an operation. -/
def Op.name : Op → String
  | .read_file _ => "read_file"
  | .write_file _ _ => "write_file"
  | .http_get _ _ => "http_get"
  | .http_post _ _ _ => "http_post"
  | .execute_command _ => "execute_command"
  | .log _ _ => "log"

/-- backends.py class FakeIO: fixtures set at construction plus the mutable
written_files and logs. -/
structure FakeBackend where
  file_contents : Dict String (List Nat) := []
  http_responses : Dict String HttpResponse := []
  command_results : Dict String CommandResult := []
  written_files : Dict String (List Nat) := []
  logs : List (String × String) := []
deriving DecidableEq, Inhabited

/-- FakeIO.read_file: exact lookup in file_contents, FileNotFoundError on a
miss. The method assigns no state. -/
def FakeBackend.read_file (ctx : FakeBackend) (path : String) :
    Except PyErr (List Nat) :=
  match ctx.file_contents.get? path with
  | none => .error (.fileNotFound ("No fake content for " ++ path))
  | some c => .ok c

/-- FakeIO.write_file: store content under path in written_files; returns
Python None and cannot raise. -/
def FakeBackend.write_file (ctx : FakeBackend) (path : String)
    (content : List Nat) : Except PyErr Unit × FakeBackend :=
  (.ok (), { ctx with written_files := ctx.written_files.insert path content })

/-- FakeIO.http_get: exact lookup of url in http_responses, ValueError on a
miss; the kwargs bag is accepted and ignored, and no state is assigned. -/
def FakeBackend.http_get (ctx : FakeBackend) (url : String)
    (kwargs : Dict String PyVal) : Except PyErr HttpResponse :=
  match ctx.http_responses.get? url with
  | none => .error (.valueError ("No fake response for GET " ++ url))
  | some r => .ok r

/-- FakeIO.http_post: composite key url + ":" + repr(data) first, then bare
url, else ValueError naming url and data (via str(data) in the f-string). -/
def FakeBackend.http_post (ctx : FakeBackend) (url : String) (data : PyObj)
    (kwargs : Dict String PyVal) : Except PyErr HttpResponse :=
  match ctx.http_responses.get? (url ++ ":" ++ data.repr) with
  | none =>
      match ctx.http_responses.get? url with
      | none => .error (.valueError
          ("No fake response for POST " ++ url ++ " with " ++ data.str))
      | some r => .ok r
  | some r => .ok r

/-- FakeIO.execute_command: look up " ".join(cmd) in command_results,
ValueError naming the joined command on a miss. -/
def FakeBackend.execute_command (ctx : FakeBackend) (cmd : List String) :
    Except PyErr CommandResult :=
  match ctx.command_results.get? (String.intercalate " " cmd) with
  | none => .error (.valueError
      ("No fake result for command: " ++ String.intercalate " " cmd))
  | some r => .ok r

/-- FakeIO.log: append (level, message) to logs; never fails. -/
def FakeBackend.log (ctx : FakeBackend) (level : String) (message : String) :
    Except PyErr Unit × FakeBackend :=
  (.ok (), { ctx with logs := ctx.logs ++ [(level, message)] })

/-- Dispatch one interface call to the fake backend, pairing the result with
the state after the call. -/
def FakeBackend.step : Op → FakeBackend → Except PyErr OpResult × FakeBackend
  | .read_file p, ctx => ((ctx.read_file p).map OpResult.bytes, ctx)
  | .write_file p c, ctx =>
      let r := ctx.write_file p c
      (r.1.map fun _ => OpResult.pyNone, r.2)
  | .http_get u k, ctx => ((ctx.http_get u k).map OpResult.http, ctx)
  | .http_post u d k, ctx => ((ctx.http_post u d k).map OpResult.http, ctx)
  | .execute_command c, ctx =>
      ((ctx.execute_command c).map OpResult.cmd, ctx)
  | .log l m, ctx =>
      let r := ctx.log l m
      (r.1.map fun _ => OpResult.pyNone, r.2)

/-- Run a sequence of calls against the fake backend, keeping only the final
state. -/
def FakeBackend.runOps : List Op → FakeBackend → FakeBackend
  | [], ctx => ctx
  | op :: ops, ctx => FakeBackend.runOps ops (FakeBackend.step op ctx).2

/-- What a child process produced, as subprocess.run reports it with
capture_output=True and text=True: the exit code and the captured text
streams. -/
structure CompletedProcess where
  returncode : Int
  stdout : String
  stderr : String
deriving DecidableEq, Inhabited

/-- backends.py class RealIO. It has no constructor of its own and holds no
state; the ambient capabilities it calls (subprocess, the logging module) are
passed to each method as explicit parameters of the embedding. -/
structure RealBackend where
deriving DecidableEq, Inhabited

/-- Constructing the real backend: the class body declares no init and no
class-level validation, so construction always succeeds, whatever the
ambient logging sink looks like. -/
def RealBackend.construct (loggingAttrs : List String) :
    Except PyErr RealBackend :=
  .ok {}

/-- RealIO.execute_command: subprocess.run(cmd, capture_output=True,
text=True) is the abstract run parameter; its result is repackaged into
CommandResult field by field, with no inspection of the exit code (the code
passes no check=True, so a non-zero exit raises nothing). -/
def RealBackend.execute_command
    (run : List String → Except PyErr CompletedProcess) (cmd : List String) :
    Except PyErr CommandResult :=
  match run cmd with
  | .error e => .error e
  | .ok r => .ok { return_code := r.returncode, stdout := r.stdout,
                   stderr := r.stderr }

/-- Python str.lower, as a character map (ASCII case folding), written so
the kernel can evaluate it on literals. -/
def pyLower (s : String) : String := String.mk (s.data.map Char.toLower)

/-- RealIO.log: logging_func = getattr(logging, level.lower()), then
logging_func(message). The process-wide logging module is modelled by the
list of its callable attribute names (loggingAttrs); getattr on an absent
name raises AttributeError, and on success the resolved sink function is
called, here reported as the (resolved name, message) pair. -/
def RealBackend.log (loggingAttrs : List String) (level : String)
    (message : String) : Except PyErr (String × String) :=
  if loggingAttrs.contains (pyLower level) then
    .ok (pyLower level, message)
  else
    .error (.attributeError
      ("module logging has no attribute " ++ pyLower level))

/-- The levels the real log method accepts, as the code resolves them: level
is recognized exactly when level.lower() is an attribute of the logging
sink. -/
def RealBackend.recognizes (loggingAttrs : List String) (level : String) :
    Bool :=
  loggingAttrs.contains (pyLower level)

/-- The spec file groups the failures of ambient capability resolution on
the real backend — the ImportError for a missing HTTP transport and the
AttributeError for an unrecognized logging level — under the single error
kind ConfigurationError (spec sections 4.2 and 7). -/
def PyErr.isConfigurationError : PyErr → Bool
  | .importError _ => true
  | .attributeError _ => true
  | _ => false

/-- An arbitrary backend wrapped by the tracing decorator: any state type σ
with a transition for each interface call. The call may fail (first
component); the backend state after the call is returned either way, since a
Python object survives an exception raised inside one of its methods. -/
structure Backend (σ : Type) where
  step : Op → σ → Except PyErr OpResult × σ

/-- The fake backend is one such backend. -/
def FakeBackend.asBackend : Backend FakeBackend :=
  { step := FakeBackend.step }

/-- backends.py class TracingIO: the wrapped context plus the append-only
trace of (operation name, args mapping, result) tuples. -/
structure TracingDecorator (σ : Type) where
  base_ctx : σ
  trace : List (String × Dict String PyVal × OpResult) := []

/-- The trace record each TracingIO method appends after its delegated call
returns. Translated append by append from the six methods: read_file,
http_get, http_post and execute_command record their arguments and the
delegated result verbatim (http_get and http_post splice the kwargs bag into
the args dict after the named arguments, as the dict literal does);
write_file records path and content_size = len(content) with result None;
log records level and message with result None. -/
def TracingDecorator.record : Op → OpResult →
    String × Dict String PyVal × OpResult
  | .read_file path, res => ("read_file", [("path", .str path)], res)
  | .write_file path content, _ =>
      ("write_file",
       [("path", .str path), ("content_size", .int content.length)],
       .pyNone)
  | .http_get url kwargs, res => ("http_get", ("url", .str url) :: kwargs, res)
  | .http_post url data kwargs, res =>
      ("http_post", ("url", .str url) :: ("data", .obj data) :: kwargs, res)
  | .execute_command cmd, res =>
      ("execute_command", [("cmd", .strList cmd)], res)
  | .log level message, _ =>
      ("log", [("level", .str level), ("message", .str message)], .pyNone)

/-- One call through TracingIO: delegate to the base context first; only
when that call returns normally is one record appended to the trace. When
the delegated call raises, the exception propagates as is and the trace is
left exactly as it was (the append line is never reached). -/
def TracingDecorator.step (B : Backend σ) (op : Op) (t : TracingDecorator σ) :
    Except PyErr OpResult × TracingDecorator σ :=
  match B.step op t.base_ctx with
  | (.error e, s) => (.error e, { t with base_ctx := s })
  | (.ok res, s) =>
      (.ok res,
       { base_ctx := s, trace := t.trace ++ [TracingDecorator.record op res] })

/-- Run a sequence of calls through the decorator, collecting each call
outcome and the final decorator state. -/
def TracingDecorator.run (B : Backend σ) :
    List Op → TracingDecorator σ →
    List (Except PyErr OpResult) × TracingDecorator σ
  | [], t => ([], t)
  | op :: ops, t =>
      let p := TracingDecorator.step B op t
      let q := TracingDecorator.run B ops p.2
      (p.1 :: q.1, q.2)

/-- Whether a delegated call completed without raising. -/
def callOk : Except PyErr OpResult → Bool
  | .ok _ => true
  | .error _ => false

theorem Dict.get?_insert_self [DecidableEq K] (d : Dict K V) (k : K) (v : V) :
    (d.insert k v).get? k = some v := by
  induction d with
  | nil => simp [Dict.insert, Dict.get?]
  | cons kv d ih =>
      obtain ⟨q, w⟩ := kv
      by_cases h : q = k <;> simp [Dict.insert, Dict.get?, h, ih]

theorem Dict.insert_insert_same [DecidableEq K] (d : Dict K V) (k : K)
    (v1 v2 : V) : (d.insert k v1).insert k v2 = d.insert k v2 := by
  induction d with
  | nil => simp [Dict.insert]
  | cons kv d ih =>
      obtain ⟨q, w⟩ := kv
      by_cases h : q = k <;> simp [Dict.insert, h, ih]

/-- C1: http_post on FakeBackend tries the composite key
url + ":" + repr(data) first, falls back to the bare url, and only when both
lookups miss raises the ValueError naming the url and the data. -/
theorem http_post_two_tier_lookup (ctx : FakeBackend) (url : String)
    (data : PyObj) (kwargs : Dict String PyVal) :
    (∀ r, ctx.http_responses.get? (url ++ ":" ++ data.repr) = some r →
        ctx.http_post url data kwargs = .ok r) ∧
    (∀ r, ctx.http_responses.get? (url ++ ":" ++ data.repr) = none →
        ctx.http_responses.get? url = some r →
        ctx.http_post url data kwargs = .ok r) ∧
    (ctx.http_responses.get? (url ++ ":" ++ data.repr) = none →
        ctx.http_responses.get? url = none →
        ctx.http_post url data kwargs = .error (.valueError
          ("No fake response for POST " ++ url ++ " with " ++ data.str))) := by
  refine ⟨?_, ?_, ?_⟩
  · intro r h
    simp [FakeBackend.http_post, h]
  · intro r h1 h2
    simp [FakeBackend.http_post, h1, h2]
  · intro h1 h2
    simp [FakeBackend.http_post, h1, h2]

theorem http_post_two_tier_lookup_witness :
    FakeBackend.http_post
        { http_responses :=
            [("u:rr", { status_code := 200, text := "hit" }),
             ("u", { status_code := 201, text := "bare" })] }
        "u" { repr := "rr", str := "ss" } [] =
      .ok { status_code := 200, text := "hit" } ∧
    FakeBackend.http_post
        { http_responses := [("u", { status_code := 201, text := "bare" })] }
        "u" { repr := "rr", str := "ss" } [] =
      .ok { status_code := 201, text := "bare" } ∧
    FakeBackend.http_post {} "u" { repr := "rr", str := "ss" } [] =
      .error (.valueError "No fake response for POST u with ss") :=
  ⟨(http_post_two_tier_lookup _ "u" { repr := "rr", str := "ss" } []).1 _
      (by decide),
   (http_post_two_tier_lookup _ "u" { repr := "rr", str := "ss" } []).2.1 _
      (by decide) (by decide),
   (http_post_two_tier_lookup _ "u" { repr := "rr", str := "ss" } []).2.2
      (by decide) (by decide)⟩

/-- C5: write_file on FakeBackend never fails, stores the content under the
path in written_files, and a second write to the same path leaves exactly the
state a single write of the second content would have left — no history of
the first value. -/
theorem write_file_never_fails_overwrites (ctx : FakeBackend) (path : String)
    (c1 c2 : List Nat) :
    (ctx.write_file path c1).1 = .ok () ∧
    (ctx.write_file path c1).2.written_files
      = ctx.written_files.insert path c1 ∧
    (ctx.write_file path c1).2.written_files.get? path = some c1 ∧
    ((ctx.write_file path c1).2.write_file path c2).2
      = (ctx.write_file path c2).2 := by
  refine ⟨rfl, rfl, Dict.get?_insert_self _ _ _, ?_⟩
  simp [FakeBackend.write_file, Dict.insert_insert_same]

/-- C6: execute_command on FakeBackend keys its fixture lookup on the argv
tokens joined with a single space; a present key returns its fixture, any
argv whose joined form is absent raises the ValueError naming the joined
command. -/
theorem execute_command_joined_key (ctx : FakeBackend) (cmd : List String) :
    (∀ r, ctx.command_results.get? (String.intercalate " " cmd) = some r →
        ctx.execute_command cmd = .ok r) ∧
    (ctx.command_results.get? (String.intercalate " " cmd) = none →
        ctx.execute_command cmd = .error (.valueError
          ("No fake result for command: " ++ String.intercalate " " cmd))) := by
  refine ⟨?_, ?_⟩
  · intro r h
    simp [FakeBackend.execute_command, h]
  · intro h
    simp [FakeBackend.execute_command, h]

theorem execute_command_joined_key_witness :
    FakeBackend.execute_command
        { command_results :=
            [("ls -la", { return_code := 0, stdout := "x", stderr := "" })] }
        ["ls", "-la"] =
      .ok { return_code := 0, stdout := "x", stderr := "" } ∧
    FakeBackend.execute_command
        { command_results :=
            [("ls -la", { return_code := 0, stdout := "x", stderr := "" })] }
        ["ls", "", "-la"] =
      .error (.valueError "No fake result for command: ls  -la") :=
  ⟨(execute_command_joined_key _ ["ls", "-la"]).1 _ (by decide),
   (execute_command_joined_key _ ["ls", "", "-la"]).2 (by decide)⟩

/-- C10: http_get on FakeBackend depends only on the url and the
http_responses fixture — two calls with different kwargs bags produce the
identical outcome — and the call leaves the backend state untouched. -/
theorem http_get_ignores_kwargs (ctx : FakeBackend) (url : String)
    (k1 k2 : Dict String PyVal) :
    ctx.http_get url k1 = ctx.http_get url k2 ∧
    (FakeBackend.step (.http_get url k1) ctx).2 = ctx :=
  ⟨rfl, rfl⟩

/-- C7: execute_command on RealBackend repackages whatever the spawned
process produced — the exit code goes into return_code, the captured stdout
and stderr text go through unchanged — and it returns normally for every
exit code, zero or not. -/
theorem real_execute_command_no_raise
    (run : List String → Except PyErr CompletedProcess) (cmd : List String)
    (r : CompletedProcess) (h : run cmd = .ok r) :
    RealBackend.execute_command run cmd
      = .ok { return_code := r.returncode, stdout := r.stdout,
              stderr := r.stderr } := by
  simp [RealBackend.execute_command, h]

theorem real_execute_command_no_raise_witness :
    RealBackend.execute_command
        (fun _ => .ok { returncode := 3, stdout := "out", stderr := "err" })
        ["false"]
      = .ok { return_code := 3, stdout := "out", stderr := "err" } :=
  real_execute_command_no_raise _ ["false"]
    { returncode := 3, stdout := "out", stderr := "err" } rfl

/-- C8: a level the logging sink does not recognize makes log on RealBackend
fail, at the call itself, with the AttributeError from resolving the level
name — the failure the spec files under ConfigurationError — while
constructing the backend succeeds whatever the sink recognizes. -/
theorem real_log_unrecognized_level (loggingAttrs : List String)
    (level message : String)
    (h : RealBackend.recognizes loggingAttrs level = false) :
    RealBackend.log loggingAttrs level message
      = .error (.attributeError
          ("module logging has no attribute " ++ pyLower level)) ∧
    (PyErr.attributeError
        ("module logging has no attribute " ++ pyLower level)).isConfigurationError
      = true ∧
    RealBackend.construct loggingAttrs = .ok {} := by
  rw [RealBackend.recognizes] at h
  refine ⟨?_, rfl, rfl⟩
  simp only [RealBackend.log]
  rw [if_neg]
  simp only [h, Bool.false_eq_true, not_false_eq_true]

theorem real_log_unrecognized_level_witness :
    RealBackend.log ["debug", "info", "warning", "error"] "fatal" "m"
      = .error (.attributeError
          ("module logging has no attribute " ++ pyLower "fatal")) ∧
    RealBackend.construct ["debug", "info", "warning", "error"] = .ok {} :=
  ⟨((real_log_unrecognized_level ["debug", "info", "warning", "error"]
      "fatal" "m") (by decide)).1,
   ((real_log_unrecognized_level ["debug", "info", "warning", "error"]
      "fatal" "m") (by decide)).2.2⟩

/-- C2: when the delegated call fails, the tracing decorator re-raises the
very same error and appends nothing: the trace after the failed call is the
trace before it. Holds for every operation and every wrapped backend. -/
theorem tracing_error_propagates {σ : Type} (B : Backend σ) (op : Op)
    (t : TracingDecorator σ) (e : PyErr) (s : σ)
    (h : B.step op t.base_ctx = (.error e, s)) :
    TracingDecorator.step B op t
      = (.error e, { base_ctx := s, trace := t.trace }) := by
  simp [TracingDecorator.step, h]

theorem tracing_error_propagates_witness :
    TracingDecorator.step
        (Backend.mk fun _ s => (.error (.valueError "boom"), s))
        (Op.read_file "/x")
        { base_ctx := (), trace := [("log", [], OpResult.pyNone)] }
      = (.error (.valueError "boom"),
         { base_ctx := (), trace := [("log", [], OpResult.pyNone)] }) :=
  tracing_error_propagates _ (Op.read_file "/x")
    { base_ctx := (), trace := [("log", [], OpResult.pyNone)] }
    (.valueError "boom") () rfl

theorem fake_step_preserves_fixtures (op : Op) (ctx : FakeBackend) :
    (FakeBackend.step op ctx).2.file_contents = ctx.file_contents ∧
    (FakeBackend.step op ctx).2.http_responses = ctx.http_responses ∧
    (FakeBackend.step op ctx).2.command_results = ctx.command_results := by
  cases op <;>
    simp [FakeBackend.step, FakeBackend.write_file, FakeBackend.log]

theorem fake_runOps_preserves_fixtures (ops : List Op) :
    ∀ ctx : FakeBackend,
      (FakeBackend.runOps ops ctx).file_contents = ctx.file_contents ∧
      (FakeBackend.runOps ops ctx).http_responses = ctx.http_responses ∧
      (FakeBackend.runOps ops ctx).command_results = ctx.command_results := by
  induction ops with
  | nil => intro ctx; exact ⟨rfl, rfl, rfl⟩
  | cons op ops ih =>
      intro ctx
      obtain ⟨h1, h2, h3⟩ := ih (FakeBackend.step op ctx).2
      obtain ⟨g1, g2, g3⟩ := fake_step_preserves_fixtures op ctx
      exact ⟨by rw [FakeBackend.runOps, h1, g1],
             by rw [FakeBackend.runOps, h2, g2],
             by rw [FakeBackend.runOps, h3, g3]⟩

/-- C4: after any sequence of operations against a FakeBackend, the three
fixture maps are exactly the construction-time ones, and read_file succeeds
on a path exactly when that path is a key of the construction-time
file_contents — writes land only in written_files and never make a read
succeed. -/
theorem fake_fixtures_immutable_read_from_fixture (ops : List Op)
    (ctx : FakeBackend) (p : String) :
    (FakeBackend.runOps ops ctx).file_contents = ctx.file_contents ∧
    (FakeBackend.runOps ops ctx).http_responses = ctx.http_responses ∧
    (FakeBackend.runOps ops ctx).command_results = ctx.command_results ∧
    ((∃ b, (FakeBackend.runOps ops ctx).read_file p = .ok b) ↔
      (ctx.file_contents.get? p).isSome = true) := by
  obtain ⟨h1, h2, h3⟩ := fake_runOps_preserves_fixtures ops ctx
  refine ⟨h1, h2, h3, ?_⟩
  rw [FakeBackend.read_file, h1]
  cases hc : ctx.file_contents.get? p with
  | none => simp [hc]
  | some b => simp [hc]

theorem fake_fixtures_immutable_read_from_fixture_witness :
    ((∃ b, (FakeBackend.runOps [Op.write_file "/a" [1]] {}).read_file "/a"
        = .ok b) ↔
      ((({} : FakeBackend).file_contents.get? "/a").isSome = true)) ∧
    (FakeBackend.runOps [Op.write_file "/a" [1]] {}).file_contents
      = ({} : FakeBackend).file_contents :=
  ⟨(fake_fixtures_immutable_read_from_fixture [Op.write_file "/a" [1]]
      {} "/a").2.2.2,
   (fake_fixtures_immutable_read_from_fixture [Op.write_file "/a" [1]]
      {} "/a").1⟩

theorem tracing_record_fst (op : Op) (res : OpResult) :
    (TracingDecorator.record op res).1 = op.name := by
  cases op <;> rfl

theorem tracing_run_trace_shape {σ : Type} (B : Backend σ) (ops : List Op) :
    ∀ t : TracingDecorator σ,
      (TracingDecorator.run B ops t).1.all callOk = true →
      ∃ recs, (TracingDecorator.run B ops t).2.trace = t.trace ++ recs ∧
        recs.length = ops.length ∧
        ∀ i, i < ops.length →
          (recs.getD i default).1 = (ops.getD i default).name := by
  induction ops with
  | nil =>
      intro t _
      exact ⟨[], by simp [TracingDecorator.run], rfl,
             fun i hi => absurd hi (by simp)⟩
  | cons op ops ih =>
      intro t h
      rw [TracingDecorator.run, List.all_cons, Bool.and_eq_true] at h
      obtain ⟨h1, h2⟩ := h
      rcases hstep : B.step op t.base_ctx with ⟨r, s⟩
      cases r with
      | error e =>
          rw [TracingDecorator.step, hstep] at h1
          simp [callOk] at h1
      | ok res =>
          have hstepeq : TracingDecorator.step B op t
              = (.ok res,
                 ⟨s, t.trace ++ [TracingDecorator.record op res]⟩) := by
            rw [TracingDecorator.step, hstep]
          rw [TracingDecorator.run, hstepeq]
          rw [hstepeq] at h2
          obtain ⟨recs, htr, hlen, hord⟩ := ih _ h2
          refine ⟨TracingDecorator.record op res :: recs, ?_, ?_, ?_⟩
          · rw [htr]
            simp
          · simp [hlen]
          · intro i hi
            cases i with
            | zero => simpa using tracing_record_fst op res
            | succ j =>
                simp only [List.getD_cons_succ]
                exact hord j (by simpa using hi)

/-- C3: when all N calls through the tracing decorator succeed, the trace
grows by exactly N records, the records before the sequence are still there
unchanged as a prefix, and the i-th new record names the i-th operation of
the sequence. -/
theorem tracing_trace_length_and_order {σ : Type} (B : Backend σ)
    (ops : List Op) (t : TracingDecorator σ)
    (h : (TracingDecorator.run B ops t).1.all callOk = true) :
    (TracingDecorator.run B ops t).2.trace.length
      = t.trace.length + ops.length ∧
    (TracingDecorator.run B ops t).2.trace.take t.trace.length = t.trace ∧
    ∀ i, i < ops.length →
      ((TracingDecorator.run B ops t).2.trace.getD
          (t.trace.length + i) default).1
        = (ops.getD i default).name := by
  obtain ⟨recs, htr, hlen, hord⟩ := tracing_run_trace_shape B ops t h
  rw [htr]
  refine ⟨by simp [hlen], List.take_left _ _, ?_⟩
  intro i hi
  rw [List.getD_append_right _ _ _ _ (Nat.le_add_right _ _)]
  rw [Nat.add_sub_cancel_left]
  exact hord i hi

theorem tracing_trace_length_and_order_witness :
    (TracingDecorator.run FakeBackend.asBackend
        [Op.read_file "/t.txt", Op.write_file "/t.txt" [1, 2],
         Op.log "info" "m"]
        { base_ctx := { file_contents := [("/t.txt", [100])] },
          trace := [] }).2.trace.length = 3 := by
  have h := tracing_trace_length_and_order FakeBackend.asBackend
    [Op.read_file "/t.txt", Op.write_file "/t.txt" [1, 2], Op.log "info" "m"]
    { base_ctx := { file_contents := [("/t.txt", [100])] }, trace := [] }
    (by decide)
  simpa using h.1

/-- C9: a successful write_file through the tracing decorator appends the
record ("write_file", with path and content_size = len(content), result
None) whose args carry no bytes value at all — in particular not the raw
payload — while each of the five other operations appends its actual
arguments and its actual delegated result verbatim. -/
theorem tracing_write_records_size_others_verbatim {σ : Type}
    (B : Backend σ) (t : TracingDecorator σ) :
    (∀ path content res s,
        B.step (.write_file path content) t.base_ctx = (.ok res, s) →
        (TracingDecorator.step B (.write_file path content) t).2.trace
          = t.trace ++ [("write_file",
              [("path", .str path), ("content_size", .int content.length)],
              .pyNone)] ∧
        ∀ k v, (k, v) ∈
            (TracingDecorator.record (.write_file path content) res).2.1 →
          ∀ b, v ≠ PyVal.bytes b) ∧
    (∀ path res s,
        B.step (.read_file path) t.base_ctx = (.ok res, s) →
        (TracingDecorator.step B (.read_file path) t).2.trace
          = t.trace ++ [("read_file", [("path", .str path)], res)]) ∧
    (∀ url kwargs res s,
        B.step (.http_get url kwargs) t.base_ctx = (.ok res, s) →
        (TracingDecorator.step B (.http_get url kwargs) t).2.trace
          = t.trace ++ [("http_get", ("url", .str url) :: kwargs, res)]) ∧
    (∀ url data kwargs res s,
        B.step (.http_post url data kwargs) t.base_ctx = (.ok res, s) →
        (TracingDecorator.step B (.http_post url data kwargs) t).2.trace
          = t.trace ++ [("http_post",
              ("url", .str url) :: ("data", .obj data) :: kwargs, res)]) ∧
    (∀ cmd res s,
        B.step (.execute_command cmd) t.base_ctx = (.ok res, s) →
        (TracingDecorator.step B (.execute_command cmd) t).2.trace
          = t.trace ++ [("execute_command", [("cmd", .strList cmd)], res)]) ∧
    (∀ level message res s,
        B.step (.log level message) t.base_ctx = (.ok res, s) →
        (TracingDecorator.step B (.log level message) t).2.trace
          = t.trace ++ [("log",
              [("level", .str level), ("message", .str message)],
              .pyNone)]) := by
  refine ⟨?_, ?_, ?_, ?_, ?_, ?_⟩
  · intro path content res s h
    refine ⟨by simp [TracingDecorator.step, h, TracingDecorator.record], ?_⟩
    intro k v hm b
    simp only [TracingDecorator.record, List.mem_cons, List.mem_singleton,
      Prod.mk.injEq, List.not_mem_nil, or_false] at hm
    rcases hm with ⟨_, rfl⟩ | ⟨_, rfl⟩ <;> simp
  · intro path res s h
    simp [TracingDecorator.step, h, TracingDecorator.record]
  · intro url kwargs res s h
    simp [TracingDecorator.step, h, TracingDecorator.record]
  · intro url data kwargs res s h
    simp [TracingDecorator.step, h, TracingDecorator.record]
  · intro cmd res s h
    simp [TracingDecorator.step, h, TracingDecorator.record]
  · intro level message res s h
    simp [TracingDecorator.step, h, TracingDecorator.record]

theorem tracing_write_records_size_others_verbatim_witness :
    (TracingDecorator.step FakeBackend.asBackend (Op.write_file "p" [7, 8])
        { base_ctx := ({} : FakeBackend), trace := [] }).2.trace
      = [("write_file",
          [("path", PyVal.str "p"), ("content_size", PyVal.int 2)],
          OpResult.pyNone)] := by
  have h := (tracing_write_records_size_others_verbatim
      FakeBackend.asBackend
      { base_ctx := ({} : FakeBackend), trace := [] }).1
    "p" [7, 8] OpResult.pyNone _ rfl
  simpa using h.1
